import Mathlib

/-!
Shallow embedding of `langchain/llms/sagemaker_endpoint.py`.

The adapter `SagemakerEndpoint` validates its configuration once
(`validate_environment`), then on each call builds the request
`{"inputs": prompt}`, invokes `client.predict`, and unwraps
`response[0]["generated_text"]`.

JSON-like Python values are modelled by `JValue`; Python exceptions by
`PyExn` (the adapter raises `ValueError` for both the spec's
`ConfigurationError` at construction time and `InferenceError` at call
time).  Python subscripting and the `in` operator are modelled by
`pySubscriptNat`, `pySubscriptStr` and `pyContains`, each returning
`Except PyExn _` exactly where the Python expression can raise.

The injected SageMaker `Predictor` is modelled as a function from the
request mapping to `Except PyExn JValue`: an `.error` result stands for
`predict` raising that exception.
-/

/-- JSON-like Python value: string, integer, list or dict (assoc list). -/
inductive JValue where
  | str : String → JValue
  | num : Int → JValue
  | arr : List JValue → JValue
  | obj : List (String × JValue) → JValue

/-- The Python exceptions that appear in the adapter's control flow. -/
inductive PyExn where
  | valueError : String → PyExn
  | keyError : String → PyExn
  | indexError : String → PyExn
  | typeError : String → PyExn
  | other : String → PyExn
  deriving DecidableEq

/-- Python `str(e)` for an exception: its message. -/
def PyExn.message : PyExn → String
  | .valueError m => m
  | .keyError m => m
  | .indexError m => m
  | .typeError m => m
  | .other m => m

/-- Whether an exception is a `ValueError` — the kind the adapter itself
raises (the spec's `ConfigurationError` / `InferenceError`). -/
def PyExn.isValueError : PyExn → Bool
  | .valueError _ => true
  | _ => false

/-- Does `needle` occur as a prefix of `hay` (over character lists)? -/
def isPrefixChars : List Char → List Char → Bool
  | [], _ => true
  | _ :: _, [] => false
  | a :: as, b :: bs => a == b && isPrefixChars as bs

/-- Does `needle` occur as a contiguous sublist of `hay`? -/
def containsSub (needle : List Char) : List Char → Bool
  | [] => isPrefixChars needle []
  | c :: rest => isPrefixChars needle (c :: rest) || containsSub needle rest

/-- Python substring test `needle in hay` for strings. -/
def strContains (hay needle : String) : Bool :=
  containsSub needle.toList hay.toList

/-- Python `==` between the string `needle` and an arbitrary value
(`str == non-str` is `False`). -/
def isStrEq (needle : String) : JValue → Bool
  | .str s => needle == s
  | _ => false

/-- Python `needle in v`: key membership for a dict, element equality for
a list, substring test for a string, `TypeError` for an integer. -/
def pyContains (needle : String) : JValue → Except PyExn Bool
  | .obj kvs => .ok (kvs.lookup needle).isSome
  | .arr xs => .ok (xs.any (isStrEq needle))
  | .str s => .ok (strContains s needle)
  | .num _ => .error (.typeError "argument of type int is not iterable")

/-- Python `v[i]` for a non-negative integer literal `i`. -/
def pySubscriptNat (i : Nat) : JValue → Except PyExn JValue
  | .arr xs =>
    match xs.get? i with
    | some v => .ok v
    | none => .error (.indexError "list index out of range")
  | .obj _ => .error (.keyError (toString i))
  | .str s =>
    match s.toList.get? i with
    | some c => .ok (.str (String.mk [c]))
    | none => .error (.indexError "string index out of range")
  | .num _ => .error (.typeError "int object is not subscriptable")

/-- Python `v[k]` for a string key `k`. -/
def pySubscriptStr (k : String) : JValue → Except PyExn JValue
  | .obj kvs =>
    match kvs.lookup k with
    | some v => .ok v
    | none => .error (.keyError k)
  | .arr _ => .error (.typeError "list indices must be integers or slices, not str")
  | .str _ => .error (.typeError "string indices must be integers")
  | .num _ => .error (.typeError "int object is not subscriptable")

/-- Python `str(v)` as used by f-string interpolation of a response field. -/
def pyStrOfJValue : JValue → String
  | .str s => s
  | .num n => toString n
  | .arr _ => "<list>"
  | .obj _ => "<dict>"

/-- The request mapping passed to `client.predict`. -/
abbrev Request := List (String × JValue)

/-- The injected SageMaker predictor: `predict(request) -> response`,
with `.error` standing for `predict` raising. -/
abbrev Client := Request → Except PyExn JValue

/-- `VALID_TASKS = ("text2text-generation", "text-generation")`. -/
def VALID_TASKS : List String := ["text2text-generation", "text-generation"]

/-- The fields of `SagemakerEndpoint` after validation, in source order. -/
structure SagemakerEndpoint where
  client : Client
  endpoint_name : String
  sagemaker_session : Unit
  task : String
  model_kwargs : Option (List (String × JValue))

/-- `SagemakerEndpoint._call`, instrumented with the list of requests
issued to `client.predict`.  Mirrors the source line by line:

  try: response = self.client.predict(\x7b"inputs": prompt\x7d)
  except Exception as e: raise ValueError(f"Error raised by inference endpoint: \x7be\x7d")
  if "error" in response: raise ValueError(f"Error raised by inference API: \x7bresponse[0]\x7d")
  return response[0]["generated_text"]

`stop` is accepted but — exactly as in the source, which imports
`enforce_stop_tokens` without ever calling it — never used. -/
def SagemakerEndpoint.callWithTrace (se : SagemakerEndpoint) (prompt : String)
    (stop : Option (List String)) : Except PyExn JValue × List Request :=
  let request : Request := [("inputs", JValue.str prompt)]
  match se.client request with
  | .error e =>
    (.error (.valueError ("Error raised by inference endpoint: " ++ e.message)), [request])
  | .ok response =>
    match pyContains "error" response with
    | .error e => (.error e, [request])
    | .ok true =>
      match pySubscriptStr "error" response with
      | .ok v =>
        (.error (.valueError ("Error raised by inference API: " ++ pyStrOfJValue v)), [request])
      | .error e => (.error e, [request])
    | .ok false =>
      match (pySubscriptNat 0 response).bind (pySubscriptStr "generated_text") with
      | .error e => (.error e, [request])
      | .ok v => (.ok v, [request])

/-- `SagemakerEndpoint._call(prompt, stop)`: the returned value or the
raised exception. -/
def SagemakerEndpoint._call (se : SagemakerEndpoint) (prompt : String)
    (stop : Option (List String)) : Except PyExn JValue :=
  (se.callWithTrace prompt stop).1

/-- `_call` in state-passing form: the method body contains no assignment
to `self`, so the post-state is the pre-state. -/
def SagemakerEndpoint.callSt (se : SagemakerEndpoint) (prompt : String)
    (stop : Option (List String)) : Except PyExn JValue × SagemakerEndpoint :=
  ((se.callWithTrace prompt stop).1, se)

/-- `SagemakerEndpoint._identifying_params`:
`\x7b**\x7b"endpoint_name": self.endpoint_name\x7d, **\x7b"model_kwargs": self.model_kwargs or \x7b\x7d\x7d\x7d`. -/
def SagemakerEndpoint._identifying_params (se : SagemakerEndpoint) : List (String × JValue) :=
  [("endpoint_name", JValue.str se.endpoint_name),
   ("model_kwargs", JValue.obj (se.model_kwargs.getD []))]

/-- `SagemakerEndpoint._llm_type`. -/
def SagemakerEndpoint._llm_type (_se : SagemakerEndpoint) : String :=
  "sagemaker_endpoint"

/-- The raw field values handed to the `validate_environment` root
validator, in source order (`task` via `values.get("task")`). -/
structure RawValues where
  endpoint_name : String
  sagemaker_session : Unit
  task : Option String
  model_kwargs : Option (List (String × JValue))

/-- Rendering of `values.get("task")` inside the f-string. -/
def taskRepr : Option String → String
  | none => "None"
  | some t => t

/-- Python rendering of the `VALID_TASKS` tuple inside the f-string. -/
def validTasksRepr : String :=
  "(\x27text2text-generation\x27, \x27text-generation\x27)"

/-- The message of the `ValueError` raised for an invalid task. -/
def invalidTaskMsg (task : Option String) : String :=
  "Got invalid task " ++ taskRepr task ++ ", currently only " ++ validTasksRepr ++
    " are supported"

/-- The message of the `ValueError` raised when the sagemaker package is
missing. -/
def importFailMsg : String :=
  "Could not import sagemaker python package. Please install sagemaker `pip install sagemaker`."

/-- `SagemakerEndpoint.validate_environment`: builds the `Predictor`
client via the factory, then rejects any `task` outside `VALID_TASKS`.
`importOk = false` stands for the `import sagemaker` statements raising
`ImportError`, which the `except ImportError` clause turns into a
`ValueError`; the task `ValueError` is raised inside the `try` but is not
an `ImportError`, so it propagates unchanged. -/
def validate_environment (importOk : Bool) (predictorFactory : String → Unit → Client)
    (values : RawValues) : Except PyExn SagemakerEndpoint :=
  if importOk then
    let client := predictorFactory values.endpoint_name values.sagemaker_session
    match values.task with
    | some t =>
      if VALID_TASKS.contains t then
        .ok ⟨client, values.endpoint_name, values.sagemaker_session, t, values.model_kwargs⟩
      else
        .error (.valueError (invalidTaskMsg (some t)))
    | none => .error (.valueError (invalidTaskMsg none))
  else
    .error (.valueError importFailMsg)

/-- A deterministic client stub that returns `r` on every request. -/
def stubClient (r : JValue) : Client :=
  fun _ => .ok r

/-- A client stub whose `predict` raises `e` on every request. -/
def raisingClient (e : PyExn) : Client :=
  fun _ => .error e

/-- An adapter instance over a given client stub. -/
def mkSE (c : Client) : SagemakerEndpoint :=
  ⟨c, "my-endpoint", (), "text-generation", none⟩

/-- The stub of the spec's success scenarios:
`[\x7b"generated_text": "Hello world"\x7d]`. -/
def helloClient : Client :=
  stubClient (.arr [.obj [("generated_text", JValue.str "Hello world")]])

/-- The requests issued by one `_call`: always exactly one, the mapping
`\x7b"inputs": prompt\x7d`. -/
theorem callWithTrace_trace (se : SagemakerEndpoint) (prompt : String)
    (stop : Option (List String)) :
    (se.callWithTrace prompt stop).2 = [[("inputs", JValue.str prompt)]] := by
  unfold SagemakerEndpoint.callWithTrace
  dsimp only
  repeat' split
  all_goals rfl

/-- Claim C1, evaluated at the failing input: with a client stub
returning `[\x7b"generated_text": "Hello world"\x7d]` and
`stop = ["world"]`, `_call` returns `"Hello world"` unmodified and not
the truncated `"Hello "`.  The source accepts `stop` and imports
`enforce_stop_tokens` but never applies it, so stop sequences are
silently ignored. -/
theorem c1_stop_ignored :
    (mkSE helloClient)._call "hi" (some ["world"]) = .ok (JValue.str "Hello world") ∧
      (mkSE helloClient)._call "hi" (some ["world"]) ≠ .ok (JValue.str "Hello ") := by
  constructor
  · rfl
  · intro h
    rw [show (mkSE helloClient)._call "hi" (some ["world"]) =
        .ok (JValue.str "Hello world") from rfl] at h
    injection h with h1
    injection h1 with h2
    exact absurd h2 (by decide)

/-- Claim C2 refuted: with the malformed stub response `\x7b\x7d`,
`_call` raises `KeyError(0)` — not the adapter's `ValueError`
(`InferenceError`) — because `response[0]["generated_text"]` is
evaluated outside the `try` block. -/
theorem c2_counterexample :
    (mkSE (stubClient (JValue.obj [])))._call "hi" none = .error (.keyError "0") ∧
      (PyExn.keyError "0").isValueError = false :=
  ⟨rfl, rfl⟩

/-- Claim C2 as amended: when the client succeeds, the response has no
`"error"` member and extracting `response[0]["generated_text"]` fails
with some exception `e`, then `_call` propagates `e` itself (a raw
`KeyError`/`IndexError`/`TypeError`), without converting it to the
adapter's `ValueError`. -/
theorem c2_amended (se : SagemakerEndpoint) (prompt : String) (stop : Option (List String))
    (response : JValue) (e : PyExn)
    (hresp : se.client [("inputs", JValue.str prompt)] = .ok response)
    (hmem : pyContains "error" response = .ok false)
    (hext : (pySubscriptNat 0 response).bind (pySubscriptStr "generated_text") = .error e) :
    se._call prompt stop = .error e := by
  simp only [SagemakerEndpoint._call, SagemakerEndpoint.callWithTrace, hresp, hmem, hext]

/-- Claim C2 amended, instantiated at the stub response `\x7b\x7d`:
each hypothesis holds there and the call propagates `KeyError(0)`. -/
theorem c2_amended_witness :
    (mkSE (stubClient (JValue.obj []))).client [("inputs", JValue.str "hi")] =
        .ok (JValue.obj []) ∧
      pyContains "error" (JValue.obj []) = .ok false ∧
      (pySubscriptNat 0 (JValue.obj [])).bind (pySubscriptStr "generated_text") =
        .error (.keyError "0") ∧
      (mkSE (stubClient (JValue.obj [])))._call "hi" none = .error (.keyError "0") :=
  ⟨rfl, rfl, rfl,
    c2_amended (mkSE (stubClient (JValue.obj []))) "hi" none (JValue.obj [])
      (PyExn.keyError "0") rfl rfl rfl⟩

/-- Claim C3: whenever `client.predict` raises `e`, `_call` raises the
adapter's `ValueError` (`InferenceError`) wrapping the original
exception's message, and every exception escaping from this path is of
that kind — never the client's native exception type. -/
theorem c3_client_exception_wrapped (se : SagemakerEndpoint) (prompt : String)
    (stop : Option (List String)) (e : PyExn)
    (h : se.client [("inputs", JValue.str prompt)] = .error e) :
    se._call prompt stop =
        .error (.valueError ("Error raised by inference endpoint: " ++ e.message)) ∧
      ∀ e2, se._call prompt stop = .error e2 → e2.isValueError = true := by
  have h1 : se._call prompt stop =
      .error (.valueError ("Error raised by inference endpoint: " ++ e.message)) := by
    simp only [SagemakerEndpoint._call, SagemakerEndpoint.callWithTrace, h]
  refine ⟨h1, fun e2 h2 => ?_⟩
  rw [h1] at h2
  injection h2 with h3
  subst h3
  rfl

/-- Claim C3 instantiated: a client raising an arbitrary exception
`boom` makes `_call` raise `ValueError` wrapping its message. -/
theorem c3_witness :
    (mkSE (raisingClient (PyExn.other "boom"))).client [("inputs", JValue.str "hi")] =
        .error (PyExn.other "boom") ∧
      (mkSE (raisingClient (PyExn.other "boom")))._call "hi" none =
        .error (.valueError ("Error raised by inference endpoint: " ++
          (PyExn.other "boom").message)) :=
  ⟨rfl,
    (c3_client_exception_wrapped (mkSE (raisingClient (PyExn.other "boom"))) "hi" none
      (PyExn.other "boom") rfl).1⟩

/-- Claim C4: when the response is a dict whose `"error"` key holds `v`,
`_call` raises the adapter's `ValueError` (`InferenceError`) whose
message carries `str(v)`. -/
theorem c4_error_key (se : SagemakerEndpoint) (prompt : String) (stop : Option (List String))
    (kvs : List (String × JValue)) (v : JValue)
    (hresp : se.client [("inputs", JValue.str prompt)] = .ok (.obj kvs))
    (hlookup : kvs.lookup "error" = some v) :
    se._call prompt stop =
      .error (.valueError ("Error raised by inference API: " ++ pyStrOfJValue v)) := by
  simp only [SagemakerEndpoint._call, SagemakerEndpoint.callWithTrace, hresp, pyContains,
    pySubscriptStr, hlookup, Option.isSome_some]

/-- Claim C4 instantiated at the stub response `\x7b"error": "boom"\x7d`:
the raised message contains `"boom"`. -/
theorem c4_witness :
    (mkSE (stubClient (JValue.obj [("error", JValue.str "boom")])))._call "hi" none =
        .error (.valueError ("Error raised by inference API: " ++
          pyStrOfJValue (JValue.str "boom"))) ∧
      strContains ("Error raised by inference API: " ++ pyStrOfJValue (JValue.str "boom"))
        "boom" = true :=
  ⟨c4_error_key (mkSE (stubClient (JValue.obj [("error", JValue.str "boom")]))) "hi" none
      [("error", JValue.str "boom")] (JValue.str "boom") rfl rfl,
    by decide⟩

/-- A trivial predictor factory for instantiating validation theorems. -/
def noopFactory : String → Unit → Client :=
  fun _ _ => stubClient (JValue.obj [])

/-- Claim C5: with the sagemaker package importable and a working
factory, `validate_environment` rejects every task outside
`VALID_TASKS` with a `ValueError` (`ConfigurationError`) whose message
names the invalid value and the allowed set, and accepts every task in
`VALID_TASKS`, storing the client, endpoint name, task and
model_kwargs. -/
theorem c5_task_validation (factory : String → Unit → Client) (values : RawValues) :
    ((∀ t, values.task = some t → t ∉ VALID_TASKS) →
      validate_environment true factory values =
        .error (.valueError (invalidTaskMsg values.task))) ∧
    (∀ t, values.task = some t → t ∈ VALID_TASKS →
      validate_environment true factory values =
        .ok ⟨factory values.endpoint_name values.sagemaker_session, values.endpoint_name,
          values.sagemaker_session, t, values.model_kwargs⟩) ∧
    invalidTaskMsg values.task =
      "Got invalid task " ++ (taskRepr values.task ++ (", currently only " ++
        (validTasksRepr ++ " are supported"))) := by
  refine ⟨?_, ?_, ?_⟩
  · intro hinv
    unfold validate_environment
    dsimp only
    cases htask : values.task with
    | none => rfl
    | some t =>
      have hmem : VALID_TASKS.contains t = false := by simpa using hinv t htask
      dsimp only
      rw [hmem]
      rfl
  · intro t htask hmem
    unfold validate_environment
    dsimp only
    rw [htask]
    have hc : VALID_TASKS.contains t = true := by simpa using hmem
    dsimp only
    rw [hc]
    rfl
  · simp only [invalidTaskMsg, String.append_assoc]

/-- Claim C5 instantiated: the task `"bogus"` is rejected with a
message naming it and both allowed tasks, while `"text-generation"`
is accepted. -/
theorem c5_witness :
    validate_environment true noopFactory ⟨"ep", (), some "bogus", none⟩ =
        .error (.valueError (invalidTaskMsg (some "bogus"))) ∧
      strContains (invalidTaskMsg (some "bogus")) "bogus" = true ∧
      strContains (invalidTaskMsg (some "bogus")) "text2text-generation" = true ∧
      strContains (invalidTaskMsg (some "bogus")) "text-generation" = true ∧
      validate_environment true noopFactory ⟨"ep", (), some "text-generation", none⟩ =
        .ok ⟨noopFactory "ep" (), "ep", (), "text-generation", none⟩ :=
  ⟨(c5_task_validation noopFactory ⟨"ep", (), some "bogus", none⟩).1
      (by intro t ht; injection ht with h2; subst h2; decide),
    by decide, by decide, by decide,
    (c5_task_validation noopFactory ⟨"ep", (), some "text-generation", none⟩).2.1
      "text-generation" rfl (by decide)⟩

/-- Claim C6: on the well-formed success shape
`[\x7b"generated_text": text\x7d]` with no stop sequence, `_call`
returns exactly `text`; in particular `"Hello world"` for the spec's
stub. -/
theorem c6_success_no_stop (text prompt : String) :
    (mkSE (stubClient (JValue.arr [JValue.obj [("generated_text", JValue.str text)]])))._call
      prompt none = .ok (JValue.str text) := by
  rfl

/-- Claim C7 refuted: with the malformed stub response `[]`, `_call`
raises `IndexError`, which is not one of the two adapter error kinds
(`ValueError` raised at construction or call time). -/
theorem c7_counterexample :
    (mkSE (stubClient (JValue.arr [])))._call "hi" none =
        .error (.indexError "list index out of range") ∧
      (PyExn.indexError "list index out of range").isValueError = false :=
  ⟨rfl, rfl⟩

/-- A non-`ValueError` exception can escape `_call` only from the
response-processing expressions that sit outside the `try` block:
the `"error" in response` test, `response["error"]`, or
`response[0]["generated_text"]`. -/
def rawEscape (se : SagemakerEndpoint) (prompt : String) (e : PyExn) : Prop :=
  ∃ response, se.client [("inputs", JValue.str prompt)] = .ok response ∧
    (pyContains "error" response = .error e ∨
      (pyContains "error" response = .ok true ∧ pySubscriptStr "error" response = .error e) ∨
      (pyContains "error" response = .ok false ∧
        (pySubscriptNat 0 response).bind (pySubscriptStr "generated_text") = .error e))

/-- Claim C7 as amended: every `_call` either returns a value or raises;
any raised exception is either the adapter's `ValueError`
(`InferenceError`) or a raw exception propagated from the
response-shape expressions evaluated outside the `try` block — so
exception kinds other than the adapter's two can reach the caller. -/
theorem c7_amended (se : SagemakerEndpoint) (prompt : String) (stop : Option (List String))
    (e : PyExn) (h : se._call prompt stop = .error e) :
    e.isValueError = true ∨ rawEscape se prompt e := by
  simp only [SagemakerEndpoint._call, SagemakerEndpoint.callWithTrace] at h
  split at h
  next e2 heq =>
    left
    have h2 : (Except.error (PyExn.valueError
        ("Error raised by inference endpoint: " ++ e2.message)) : Except PyExn JValue) =
        .error e := h
    injection h2 with h3
    subst h3
    rfl
  next response heq =>
    split at h
    next e2 heqC =>
      have h2 : (Except.error e2 : Except PyExn JValue) = .error e := h
      injection h2 with h3
      subst h3
      exact Or.inr ⟨response, heq, Or.inl heqC⟩
    next heqC =>
      split at h
      next v heqS =>
        left
        have h2 : (Except.error (PyExn.valueError
            ("Error raised by inference API: " ++ pyStrOfJValue v)) : Except PyExn JValue) =
            .error e := h
        injection h2 with h3
        subst h3
        rfl
      next e2 heqS =>
        have h2 : (Except.error e2 : Except PyExn JValue) = .error e := h
        injection h2 with h3
        subst h3
        exact Or.inr ⟨response, heq, Or.inr (Or.inl ⟨heqC, heqS⟩)⟩
    next heqC =>
      split at h
      next e2 heqE =>
        have h2 : (Except.error e2 : Except PyExn JValue) = .error e := h
        injection h2 with h3
        subst h3
        exact Or.inr ⟨response, heq, Or.inr (Or.inr ⟨heqC, heqE⟩)⟩
      next v heqE =>
        have h2 : (Except.ok v : Except PyExn JValue) = .error e := h
        cases h2

/-- Claim C7 amended, instantiated at a client whose `predict` raises:
the escaping exception is the adapter's `ValueError`. -/
theorem c7_amended_witness :
    (PyExn.valueError ("Error raised by inference endpoint: " ++
        (PyExn.other "boom").message)).isValueError = true ∨
      rawEscape (mkSE (raisingClient (PyExn.other "boom"))) "hi"
        (.valueError ("Error raised by inference endpoint: " ++ (PyExn.other "boom").message)) :=
  c7_amended (mkSE (raisingClient (PyExn.other "boom"))) "hi" none
    (.valueError ("Error raised by inference endpoint: " ++ (PyExn.other "boom").message)) rfl

/-- Claim C8: `_call` in state-passing form is idempotent and
stateless — a second call with identical inputs on the post-state
returns the identical result, and no stored configuration field
(client, endpoint_name, task, model_kwargs) is modified. -/
theorem c8_idempotent_stateless (se : SagemakerEndpoint) (prompt : String)
    (stop : Option (List String)) :
    (se.callSt prompt stop).2 = se ∧
      (((se.callSt prompt stop).2).callSt prompt stop).1 = (se.callSt prompt stop).1 ∧
      ((se.callSt prompt stop).2).client = se.client ∧
      ((se.callSt prompt stop).2).endpoint_name = se.endpoint_name ∧
      ((se.callSt prompt stop).2).task = se.task ∧
      ((se.callSt prompt stop).2).model_kwargs = se.model_kwargs :=
  ⟨rfl, rfl, rfl, rfl, rfl, rfl⟩

/-- Claim C9: one `_call` issues exactly one request to
`client.predict`, and that request is the mapping
`\x7b"inputs": prompt\x7d` — in particular it maps `"inputs"` to the
prompt. -/
theorem c9_single_request (se : SagemakerEndpoint) (prompt : String)
    (stop : Option (List String)) :
    (se.callWithTrace prompt stop).2 = [[("inputs", JValue.str prompt)]] ∧
      ((se.callWithTrace prompt stop).2).length = 1 ∧
      ([("inputs", JValue.str prompt)] : Request).lookup "inputs" = some (JValue.str prompt) :=
  ⟨callWithTrace_trace se prompt stop,
    by rw [callWithTrace_trace se prompt stop]; rfl,
    rfl⟩

/-- Claim C10: `_identifying_params` is exactly the two-entry mapping
`endpoint_name` / `model_kwargs` with `None` normalized to `\x7b\x7d`,
and the request sent by `_call` is exactly `\x7b"inputs": prompt\x7d`
with model_kwargs never merged in. -/
theorem c10_identifying_params (se : SagemakerEndpoint) (prompt : String)
    (stop : Option (List String)) :
    se._identifying_params =
        [("endpoint_name", JValue.str se.endpoint_name),
          ("model_kwargs", JValue.obj (se.model_kwargs.getD []))] ∧
      (mkSE helloClient)._identifying_params =
        [("endpoint_name", JValue.str "my-endpoint"), ("model_kwargs", JValue.obj [])] ∧
      (se.callWithTrace prompt stop).2 = [[("inputs", JValue.str prompt)]] :=
  ⟨rfl, rfl, callWithTrace_trace se prompt stop⟩
